import Mathlib

/-!
Shallow embedding of the AdvoLens client (Next.js API proxy routes, the
`lib/api.ts` helpers, and the page-component handlers that the claims
concern).  JavaScript strings become `String`, nullable values become
`Option`, JSON values become the inductive `Json` below, and the effect of
`fetch` + `response.json()` is modelled by the `Outcome` a backend call
would have.  Each route function returns both the HTTP response it would
produce and the backend fetch (if any) it would perform, so that claims
about "no fetch happens" are expressible.
-/

namespace AdvoLens

/-- JSON values, as produced by `await response.json()` and consumed by
`NextResponse.json`.  Objects are ordered field lists (first occurrence
wins on lookup, matching JS property access on the parsed object, which
for `JSON.parse` keeps the last duplicate; the route bodies built by this
client never contain duplicate keys, so the order convention is
unobservable in the claims). -/
inductive Json where
  | null : Json
  | bool (b : Bool) : Json
  | num (n : Int) : Json
  | str (s : String) : Json
  | arr (elems : List Json) : Json
  | obj (fields : List (String × Json)) : Json


/-- Property access `x.k` on a parsed JSON value: `some v` when `x` is an
object with field `k`, `none` (JS `undefined`) otherwise. -/
def jGet : Json → String → Option Json
  | .obj fields, k => fields.lookup k
  | _, _ => none

/-- JavaScript truthiness of a JSON value: `null`, `false`, `0` and the
empty string are falsy; every other value (including empty arrays and
objects) is truthy. -/
def jsTruthy : Json → Bool
  | .null => false
  | .bool b => b
  | .num n => n != 0
  | .str s => s != ""
  | .arr _ => true
  | .obj _ => true

/-- Truthiness of a JS `string | null` value, as tested by `if (!x)`:
falsy when the value is `null` or the empty string. -/
def jsFalsyStr : Option String → Bool
  | none => true
  | some s => s == ""

/-- The idiom `x || d` on a `string | undefined` environment variable:
the default is used when the variable is unset or empty. -/
def jsOrDefault (x : Option String) (d : String) : String :=
  match x with
  | none => d
  | some s => if s == "" then d else s

/-- JS `s.startsWith(pre)`, expressed on the character lists of the two
strings. -/
def strStartsWith (s pre : String) : Bool :=
  pre.data.isPrefixOf s.data

/-- Body attached to an outgoing backend fetch. -/
inductive RequestBody where
  | empty : RequestBody
  | jsonBody (j : Json) : RequestBody
  | formBody (entries : List (String × String)) : RequestBody


/-- A backend fetch a route performs: the URL, the HTTP method, the
forwarded `Authorization` header (when one is sent), and the body. -/
structure FetchCall where
  url : String
  method : String
  auth : Option String
  body : RequestBody


/-- The observable effect of `fetch` + `await response.json()` on a
backend call: either the pair throws (network failure or a non-JSON
body), or it yields the response status and parsed JSON body. -/
inductive Outcome where
  | throws : Outcome
  | responds (status : Nat) (body : Json) : Outcome


/-- The `Response.ok` flag: status in the range 200–299. -/
def respOk (status : Nat) : Bool :=
  200 ≤ status && status < 300

/-- The HTTP response a route returns: status code and JSON body.
`NextResponse.json(data)` without an init uses status 200. -/
structure RouteResponse where
  status : Nat
  body : Json


/-- The value of `data.detail || fb` used when a proxy route rebuilds an
error body: the backend's `detail` field when present and truthy, the
route's fallback string otherwise. -/
def detailOrFallback (data : Json) (fb : String) : Json :=
  match jGet data "detail" with
  | some v => if jsTruthy v then v else .str fb
  | none => .str fb

/-- Shared tail of every `detail`-style proxy route, which the route files
repeat verbatim (only the fallback message differs):
`const data = await backendResponse.json(); if (!backendResponse.ok)
return NextResponse.json({detail: data.detail || fb}, {status}); return
NextResponse.json(data);` with the surrounding `catch` returning a 500
`Internal server error` body. -/
def proxyTail (fb : String) : Outcome → RouteResponse
  | .throws => ⟨500, .obj [("detail", .str "Internal server error")]⟩
  | .responds s b =>
      if respOk s then ⟨200, b⟩
      else ⟨s, .obj [("detail", detailOrFallback b fb)]⟩

/-- Shared tail of the routes in `app/api/issues/...` that instead `throw`
on a non-ok backend response and answer 500 with an `error` body from the
`catch` block. -/
def throwTail (msg : String) : Outcome → RouteResponse
  | .throws => ⟨500, .obj [("error", .str msg)]⟩
  | .responds s b =>
      if respOk s then ⟨200, b⟩
      else ⟨500, .obj [("error", .str msg)]⟩

/-- Response of the auth guard shared by the admin and auth routes. -/
def auth401 : RouteResponse :=
  ⟨401, .obj [("detail", .str "Authorization header required")]⟩

/-- Response of the tracking-token guard of the notifications routes. -/
def token400 : RouteResponse :=
  ⟨400, .obj [("detail", .str "Tracking token is required")]⟩

/-- GET `/api/admin/issues` (`app/api/admin/issues/route.ts`): requires an
`Authorization` header, forwards the query string to
`BACKEND_URL/admin/issues` (prefixed by `?` when non-empty), and proxies
the backend answer.  `B` is the resolved `BACKEND_URL`, `auth` the
incoming header, `qs` the serialized query string. -/
def adminIssuesGET (B : String) (auth : Option String) (qs : String)
    (o : Outcome) : RouteResponse × Option FetchCall :=
  if jsFalsyStr auth then (auth401, none)
  else
    let url := B ++ "/admin/issues" ++ (if qs == "" then "" else "?" ++ qs)
    (proxyTail "Failed to fetch issues" o, some ⟨url, "GET", auth, .empty⟩)

/-- GET `/api/admin/stats` (`app/api/admin/stats/route.ts`). -/
def adminStatsGET (B : String) (auth : Option String)
    (o : Outcome) : RouteResponse × Option FetchCall :=
  if jsFalsyStr auth then (auth401, none)
  else
    (proxyTail "Failed to fetch stats" o,
     some ⟨B ++ "/admin/stats", "GET", auth, .empty⟩)

/-- GET `/api/auth/me` (`app/api/auth/me/route.ts`). -/
def authMeGET (B : String) (auth : Option String)
    (o : Outcome) : RouteResponse × Option FetchCall :=
  if jsFalsyStr auth then (auth401, none)
  else
    (proxyTail "Unauthorized" o,
     some ⟨B ++ "/auth/me", "GET", auth, .empty⟩)

/-- PATCH `/api/admin/issues/[id]/reassign`: auth guard, then forwards the
parsed JSON request body to `BACKEND_URL/admin/{id}/reassign`. -/
def reassignPATCH (B : String) (auth : Option String) (id : String)
    (reqBody : Json) (o : Outcome) : RouteResponse × Option FetchCall :=
  if jsFalsyStr auth then (auth401, none)
  else
    (proxyTail "Failed to reassign issue" o,
     some ⟨B ++ "/admin/" ++ id ++ "/reassign", "PATCH", auth,
           .jsonBody reqBody⟩)

/-- DELETE `/api/admin/issues/[id]`: auth guard, then forwards the delete
to `BACKEND_URL/admin/{id}`. -/
def deleteIssueDELETE (B : String) (auth : Option String) (id : String)
    (o : Outcome) : RouteResponse × Option FetchCall :=
  if jsFalsyStr auth then (auth401, none)
  else
    (proxyTail "Failed to delete issue" o,
     some ⟨B ++ "/admin/" ++ id, "DELETE", auth, .empty⟩)

/-- GET `/api/notifications` (`app/api/notifications/route.ts`): requires
the `token` query parameter (`searchParams.get('token')`, `none` when
absent), then proxies `BACKEND_URL/notifications/my-notifications`. -/
def notificationsGET (B : String) (token : Option String)
    (o : Outcome) : RouteResponse × Option FetchCall :=
  if jsFalsyStr token then (token400, none)
  else
    (proxyTail "Failed to fetch notifications" o,
     some ⟨B ++ "/notifications/my-notifications?token="
             ++ token.getD "", "GET", none, .empty⟩)

/-- PATCH `/api/notifications/[id]/read`
(`app/api/notifications/[id]/read/route.ts`). -/
def notifReadPATCH (B : String) (id : String) (token : Option String)
    (o : Outcome) : RouteResponse × Option FetchCall :=
  if jsFalsyStr token then (token400, none)
  else
    (proxyTail "Failed to mark notification as read" o,
     some ⟨B ++ "/notifications/" ++ id ++ "/read?token="
             ++ token.getD "", "PATCH", none, .empty⟩)

/-- GET `/api/notifications/count` (second route in
`app/api/notifications/route.ts`): answers `{total: 0, unread: 0}` with
status 200 when the token is missing, the backend fails, or the fetch
throws; returns the backend body only on an ok response. -/
def notifCountGET (B : String) (token : Option String)
    (o : Outcome) : RouteResponse × Option FetchCall :=
  let zeros : RouteResponse := ⟨200, .obj [("total", .num 0), ("unread", .num 0)]⟩
  if jsFalsyStr token then (zeros, none)
  else
    let resp :=
      match o with
      | .throws => zeros
      | .responds s b => if respOk s then ⟨200, b⟩ else zeros
    (resp, some ⟨B ++ "/notifications/count?token=" ++ token.getD "",
                 "GET", none, .empty⟩)

/-- GET `/api/issues/[id]/similar` (`app/api/issues/[id]/similar/route.ts`):
the `limit` query parameter defaults to `'5'` via `|| '5'`, and the route
uses the throw-on-error pattern. -/
def similarGET (B : String) (id : String) (limit : Option String)
    (o : Outcome) : RouteResponse × Option FetchCall :=
  let lim := jsOrDefault limit "5"
  (throwTail "Failed to fetch similar issues" o,
   some ⟨B ++ "/issues/" ++ id ++ "/similar?limit=" ++ lim,
         "GET", none, .empty⟩)

/-- POST `/api/issues` (`app/api/issues/route.ts`): forwards the incoming
multipart form data unchanged as the backend request body. -/
def issuesPOST (B : String) (formData : List (String × String))
    (o : Outcome) : RouteResponse × Option FetchCall :=
  (throwTail "Failed to create issue" o,
   some ⟨B ++ "/issues/", "POST", none, .formBody formData⟩)

/-- The environment variables through which the client refers to the
backend; each is `none` when unset. -/
structure Env where
  BACKEND_URL : Option String
  NEXT_PUBLIC_API_URL : Option String
  NEXT_PUBLIC_BACKEND_URL : Option String

/-- `getImageUrl` from `lib/api.ts`: a path that already is a full
`http://` or `https://` URL is returned as-is; otherwise the path is
prefixed with `process.env.NEXT_PUBLIC_BACKEND_URL ||
http://localhost:8000` and a slash. -/
def getImageUrl (env : Env) (imagePath : String) : String :=
  if strStartsWith imagePath "http://" || strStartsWith imagePath "https://" then
    imagePath
  else
    jsOrDefault env.NEXT_PUBLIC_BACKEND_URL "http://localhost:8000"
      ++ "/" ++ imagePath

/-- The `Hotspot` interface of `components/IssueMap.tsx`.  Coordinates are
modelled as rationals: the component performs no arithmetic on them, it
only passes them to Leaflet. -/
structure Hotspot where
  cluster_id : Nat
  centerLat : ℚ
  centerLon : ℚ
  issue_count : Nat
  issue_ids : List Nat
  primary_department : Option String

/-- What the `IssueMap` component draws for one hotspot: the marker
position and icon label, the popup HTML, and the highlight circle
position. -/
structure HotspotLayer where
  markerPos : ℚ × ℚ
  iconCount : Nat
  popup : String
  circlePos : ℚ × ℚ
deriving DecidableEq, Repr

/-- JS `String.prototype.replace` with a string pattern: replaces only the
first occurrence. -/
def replaceFirst (s pat rep : String) : String :=
  match s.splitOn pat with
  | [] => s
  | [_] => s
  | h :: t => h ++ rep ++ String.intercalate pat t

/-- Popup content built for a hotspot marker in `IssueMap.tsx` (the
template literal at the `showHotspots` branch; whitespace between tags is
elided, the displayed data is kept verbatim): the issue count, the primary
department when truthy (first underscore replaced by a space), and the
first five issue ids with a trailing ellipsis when more than five. -/
def hotspotPopup (h : Hotspot) : String :=
  "<div>🔥 Problem Hotspot<p>" ++ toString h.issue_count
    ++ " issues in this area</p>"
    ++ (if jsFalsyStr h.primary_department then ""
        else "<p>Primary: "
          ++ replaceFirst (h.primary_department.getD "") "_" " " ++ "</p>")
    ++ "<p>Issue IDs: "
    ++ String.intercalate ", " ((h.issue_ids.take 5).map toString)
    ++ (if h.issue_ids.length > 5 then "..." else "")
    ++ "</p></div>"

/-- Rendering of one hotspot in `IssueMap.tsx`: `L.marker([hotspot.center.lat,
hotspot.center.lon], {icon: createHotspotIcon(hotspot.issue_count)})` with
the popup above, and `L.circle` at the same center. -/
def hotspotLayer (h : Hotspot) : HotspotLayer :=
  { markerPos := (h.centerLat, h.centerLon)
    iconCount := h.issue_count
    popup := hotspotPopup h
    circlePos := (h.centerLat, h.centerLon) }

/-- Browser `localStorage`, as a list of key/value pairs with the most
recent write first. -/
abbrev Store := List (String × String)

/-- `localStorage.getItem`. -/
def getItem (st : Store) (k : String) : Option String :=
  List.lookup k st

/-- `localStorage.setItem`. -/
def setItem (st : Store) (k v : String) : Store :=
  (k, v) :: List.filter (fun p => p.1 != k) st

/-- JS `String(v)` coercion applied by `localStorage.setItem` to a JSON
value. -/
def jsToStr : Json → String
  | .null => "null"
  | .bool b => if b then "true" else "false"
  | .num n => toString n
  | .str s => s
  | .arr elems =>
      String.intercalate "," (elems.attach.map (fun x => jsToStr x.1))
  | .obj _ => "[object Object]"
termination_by j => sizeOf j
decreasing_by
  simp_wf
  have := List.sizeOf_lt_of_mem x.2
  omega

/-- Storage step of `handleSubmit` on the report page: `if
(res.tracking_token) localStorage.setItem(tracking_token,
res.tracking_token)` — the token is saved only when the response field is
present and truthy. -/
def handleSubmitStore (st : Store) (res : Json) : Store :=
  match jGet res "tracking_token" with
  | some v => if jsTruthy v then setItem st "tracking_token" (jsToStr v) else st
  | none => st

/-- Vote-status check inside `fetchData` of the issue-detail page: reads
the tracking token from localStorage and, when truthy, fetches the vote
status with the token as `citizen_token`.  `A` is the resolved `API_URL`
(`process.env.NEXT_PUBLIC_API_URL || http://localhost:8000`). -/
def fetchVoteStatus (A : String) (st : Store) (issueId : String) :
    Option FetchCall :=
  let token := getItem st "tracking_token"
  if jsFalsyStr token then none
  else some ⟨A ++ "/issues/" ++ issueId ++ "/vote?citizen_token="
               ++ token.getD "", "GET", none, .empty⟩

/-- `handleVote` of the issue-detail page: without a stored token it only
alerts; with one it POSTs an upvote carrying the token. -/
def handleVote (A : String) (st : Store) (issueId : String) :
    Option FetchCall :=
  let token := getItem st "tracking_token"
  if jsFalsyStr token then none
  else some ⟨A ++ "/issues/" ++ issueId ++ "/vote", "POST", none,
             .jsonBody (.obj [("citizen_token", .str (token.getD "")),
                              ("vote_type", .str "upvote")])⟩

/-- `handleComment` of the issue-detail page: without a stored token it
only alerts; with one, and a non-blank comment, it POSTs the comment text
carrying the token. -/
def handleComment (A : String) (st : Store) (issueId newComment : String) :
    Option FetchCall :=
  let token := getItem st "tracking_token"
  if jsFalsyStr token then none
  else if newComment.trim == "" then none
  else some ⟨A ++ "/issues/" ++ issueId ++ "/comments", "POST", none,
             .jsonBody (.obj [("citizen_token", .str (token.getD "")),
                              ("text", .str newComment)])⟩

/-- Mount effect of the notifications page (`feed/page.tsx`,
`NotificationsPage`): reads the saved tracking token and, when truthy,
fetches `/api/notifications?token=...`. -/
def notificationsPageFetch (st : Store) : Option FetchCall :=
  let savedToken := getItem st "tracking_token"
  if jsFalsyStr savedToken then none
  else some ⟨"/api/notifications?token=" ++ savedToken.getD "",
             "GET", none, .empty⟩

/-- The two pieces of report-page state that
`handleManualLocationSubmit` touches. -/
structure ReportLocState where
  location : Option (ℚ × ℚ)
  locationError : Option String
deriving DecidableEq, Repr

/-- `handleManualLocationSubmit` of the report page.  `latP`/`lonP` model
`parseFloat(manualLat)`/`parseFloat(manualLon)`: `none` when the result is
`NaN`, `some` the parsed value otherwise (the handler only compares the
parsed numbers, so rationals model the float comparisons exactly).  Out of
range or unparsable input only alerts and leaves the state alone; valid
input sets the location and clears the location error. -/
def handleManualLocationSubmit (latP lonP : Option ℚ)
    (st : ReportLocState) : ReportLocState :=
  match latP, lonP with
  | some lat, some lon =>
      if lat < -90 ∨ lat > 90 ∨ lon < -180 ∨ lon > 180 then st
      else { location := some (lat, lon), locationError := none }
  | _, _ => st

/-- C1: for each of GET `/api/admin/issues`, GET `/api/admin/stats`, GET
`/api/auth/me`, PATCH `/api/admin/issues/[id]/reassign` and DELETE
`/api/admin/issues/[id]`, a request without an `Authorization` header is
answered with status 401 and body `detail: Authorization header required`,
and no backend fetch is performed. -/
theorem adminRoutes_missingAuth_401_noFetch (B qs id : String)
    (reqBody : Json) (o : Outcome) :
    adminIssuesGET B none qs o =
      (⟨401, .obj [("detail", .str "Authorization header required")]⟩, none) ∧
    adminStatsGET B none o =
      (⟨401, .obj [("detail", .str "Authorization header required")]⟩, none) ∧
    authMeGET B none o =
      (⟨401, .obj [("detail", .str "Authorization header required")]⟩, none) ∧
    reassignPATCH B none id reqBody o =
      (⟨401, .obj [("detail", .str "Authorization header required")]⟩, none) ∧
    deleteIssueDELETE B none id o =
      (⟨401, .obj [("detail", .str "Authorization header required")]⟩, none) :=
  ⟨rfl, rfl, rfl, rfl, rfl⟩

/-- C8 counterexample: the `http://localhost:8000` default is applied not
only when `NEXT_PUBLIC_BACKEND_URL` is unset but also when it is set and
empty (`process.env.NEXT_PUBLIC_BACKEND_URL || ...` is a falsy test), so
with the variable set to the empty string the result is not the
claim-predicted concatenation of the variable, a slash and the path. -/
theorem getImageUrl_emptyEnv_cex :
    getImageUrl ⟨none, none, some ""⟩ "img.png" =
      "http://localhost:8000/img.png" ∧
    "http://localhost:8000/img.png" ≠ "" ++ "/" ++ "img.png" := by
  exact ⟨by decide, by decide⟩

/-- C8 amended: `getImageUrl` returns the path unchanged exactly when it
starts with `http://` or `https://`; otherwise it returns
`NEXT_PUBLIC_BACKEND_URL` — with `http://localhost:8000` substituted when
that variable is unset or empty — followed by a slash and the path. -/
theorem getImageUrl_passthrough_iff (env : Env) (p : String) :
    (getImageUrl env p = p ↔
      (strStartsWith p "http://" = true ∨ strStartsWith p "https://" = true)) ∧
    (¬(strStartsWith p "http://" = true ∨ strStartsWith p "https://" = true) →
      getImageUrl env p =
        (match env.NEXT_PUBLIC_BACKEND_URL with
         | none => "http://localhost:8000"
         | some s => if s == "" then "http://localhost:8000" else s)
          ++ "/" ++ p) := by
  by_cases hc : (strStartsWith p "http://" || strStartsWith p "https://") = true
  · rw [Bool.or_eq_true] at hc
    constructor
    · constructor
      · intro _; exact hc
      · intro _
        simp only [getImageUrl]
        rw [if_pos (by rw [Bool.or_eq_true]; exact hc)]
    · intro hn; exact absurd hc hn
  · rw [Bool.or_eq_true] at hc
    have hval : getImageUrl env p =
        (match env.NEXT_PUBLIC_BACKEND_URL with
         | none => "http://localhost:8000"
         | some s => if s == "" then "http://localhost:8000" else s)
          ++ "/" ++ p := by
      simp only [getImageUrl]
      rw [if_neg (by rw [Bool.or_eq_true]; exact hc)]
      rfl
    refine ⟨⟨fun hEq => ?_, fun hyes => absurd hyes hc⟩, fun _ => hval⟩
    exfalso
    have hlen := congrArg String.length (hval.symm.trans hEq)
    rw [String.length_append, String.length_append] at hlen
    have hone : ("/" : String).length = 1 := rfl
    omega

/-- C8 witness: with the variable set and empty, a relative path is
prefixed with the default backend URL. -/
theorem getImageUrl_passthrough_iff_witness :
    getImageUrl ⟨none, none, some ""⟩ "uploads/img.png" =
      "http://localhost:8000/uploads/img.png" :=
  ((getImageUrl_passthrough_iff ⟨none, none, some ""⟩ "uploads/img.png").2
    (by decide)).trans (by decide)

/-- C3 counterexample: `getImageUrl` reads the environment variable
`NEXT_PUBLIC_BACKEND_URL`, not `BACKEND_URL` or `NEXT_PUBLIC_API_URL`: two
environments that agree on the latter two variables produce different
image URLs for the same non-URL path, so the result is not expressed
through those two variables alone. -/
theorem getImageUrl_thirdEnvVar_cex :
    (Env.mk (some "http://same") (some "http://same")
        (some "http://a")).BACKEND_URL =
      (Env.mk (some "http://same") (some "http://same")
        (some "http://b")).BACKEND_URL ∧
    (Env.mk (some "http://same") (some "http://same")
        (some "http://a")).NEXT_PUBLIC_API_URL =
      (Env.mk (some "http://same") (some "http://same")
        (some "http://b")).NEXT_PUBLIC_API_URL ∧
    getImageUrl ⟨some "http://same", some "http://same", some "http://a"⟩
        "img.png" ≠
      getImageUrl ⟨some "http://same", some "http://same", some "http://b"⟩
        "img.png" := by
  refine ⟨rfl, rfl, ?_⟩
  decide

/-- C3 amended: `getImageUrl` either returns the path itself or derives
the URL from the `NEXT_PUBLIC_BACKEND_URL` environment variable (default
`http://localhost:8000`), and its result depends on no environment
variable other than `NEXT_PUBLIC_BACKEND_URL`. -/
theorem getImageUrl_env_dependence_amended (env env₂ : Env) (p : String) :
    (getImageUrl env p = p ∨
      getImageUrl env p =
        jsOrDefault env.NEXT_PUBLIC_BACKEND_URL "http://localhost:8000"
          ++ "/" ++ p) ∧
    (env.NEXT_PUBLIC_BACKEND_URL = env₂.NEXT_PUBLIC_BACKEND_URL →
      getImageUrl env p = getImageUrl env₂ p) := by
  constructor
  · by_cases hc : (strStartsWith p "http://" || strStartsWith p "https://") = true
    · left; simp only [getImageUrl]; rw [if_pos hc]
    · right; simp only [getImageUrl]; rw [if_neg hc]
  · intro hEq
    simp only [getImageUrl, hEq]

/-- C3 witness: two environments sharing `NEXT_PUBLIC_BACKEND_URL` give
the same image URL. -/
theorem getImageUrl_env_dependence_witness :
    getImageUrl ⟨some "http://x", none, some "http://cdn"⟩ "img.png" =
      getImageUrl ⟨none, some "http://y", some "http://cdn"⟩ "img.png" :=
  (getImageUrl_env_dependence_amended
    ⟨some "http://x", none, some "http://cdn"⟩
    ⟨none, some "http://y", some "http://cdn"⟩ "img.png").2 rfl

/-- C10: `handleManualLocationSubmit` sets the location (and clears the
location error) exactly when both inputs parse and the latitude lies in
`[-90, 90]` and the longitude in `[-180, 180]`; any other input leaves
both pieces of state unchanged. -/
theorem manualLocation_bounds (latP lonP : Option ℚ) (st : ReportLocState) :
    (∀ lat lon, latP = some lat → lonP = some lon →
      -90 ≤ lat → lat ≤ 90 → -180 ≤ lon → lon ≤ 180 →
      handleManualLocationSubmit latP lonP st = ⟨some (lat, lon), none⟩) ∧
    ((latP = none ∨ lonP = none ∨
        ∃ lat lon, latP = some lat ∧ lonP = some lon ∧
          (lat < -90 ∨ lat > 90 ∨ lon < -180 ∨ lon > 180)) →
      handleManualLocationSubmit latP lonP st = st) := by
  constructor
  · intro lat lon hlat hlon h1 h2 h3 h4
    subst hlat; subst hlon
    simp only [handleManualLocationSubmit]
    rw [if_neg]
    push_neg
    exact ⟨by linarith, by linarith, by linarith, by linarith⟩
  · intro hbad
    rcases hbad with h | h | ⟨lat, lon, hlat, hlon, hout⟩
    · subst h; rfl
    · subst h; cases latP <;> rfl
    · subst hlat; subst hlon
      simp only [handleManualLocationSubmit]
      rw [if_pos hout]

/-- C10 witness: valid coordinates are stored and the previous location
error is cleared. -/
theorem manualLocation_bounds_witness :
    handleManualLocationSubmit (some 10) (some 20)
        ⟨none, some "Location request timed out"⟩ =
      ⟨some (10, 20), none⟩ :=
  (manualLocation_bounds (some 10) (some 20)
      ⟨none, some "Location request timed out"⟩).1 10 20 rfl rfl
    (by norm_num) (by norm_num) (by norm_num) (by norm_num)

/-- C2 counterexample: GET `/api/issues/[id]/similar` does not forward a
present `limit` parameter verbatim when it is the empty string: `limit=`
becomes `limit=5` in the backend URL, because the default is applied via
the falsy test `searchParams.get(limit) || 5`. -/
theorem similarLimit_emptyParam_cex :
    ((similarGET "http://b" "1" (some "") Outcome.throws).2.map
        FetchCall.url) = some "http://b/issues/1/similar?limit=5" ∧
    some "http://b/issues/1/similar?limit=5" ≠
      some "http://b/issues/1/similar?limit=" := by
  exact ⟨rfl, by decide⟩

/-- C2 amended: GET `/api/admin/issues` with a non-empty Authorization
header fetches `BACKEND_URL/admin/issues` with the same header and the
query string appended behind `?` exactly when non-empty; POST
`/api/issues` forwards the incoming form data unchanged as the backend
body; GET `/api/issues/[id]/similar` forwards the `limit` parameter,
substituting `5` when it is absent or empty. -/
theorem proxyForwarding_amended (B a qs id : String)
    (lim : Option String) (fd : List (String × String)) (o : Outcome)
    (ha : a ≠ "") :
    (adminIssuesGET B (some a) qs o).2 =
      some ⟨B ++ "/admin/issues" ++ (if qs == "" then "" else "?" ++ qs),
            "GET", some a, .empty⟩ ∧
    (issuesPOST B fd o).2 =
      some ⟨B ++ "/issues/", "POST", none, .formBody fd⟩ ∧
    (similarGET B id lim o).2 =
      some ⟨B ++ "/issues/" ++ id ++ "/similar?limit=" ++
              (match lim with
               | none => "5"
               | some s => if s == "" then "5" else s),
            "GET", none, .empty⟩ := by
  have hfa : jsFalsyStr (some a) = false := by simp [jsFalsyStr, ha]
  refine ⟨?_, rfl, ?_⟩
  · simp [adminIssuesGET, hfa]
  · cases lim <;> rfl

/-- C2 witness: a concrete admin-issues request with a query string is
forwarded with its header and query string. -/
theorem proxyForwarding_witness :
    (adminIssuesGET "http://b" (some "Bearer x") "status=Open"
        Outcome.throws).2 =
      some ⟨"http://b/admin/issues?status=Open", "GET", some "Bearer x",
            .empty⟩ :=
  ((proxyForwarding_amended "http://b" "Bearer x" "status=Open" "1" none []
      Outcome.throws (by decide)).1).trans rfl

/-- C4 counterexample: a backend error body whose `detail` field is
present but empty is not passed through: the route substitutes its
fallback message, because the body is rebuilt with `data.detail ||
fallback`. -/
theorem detailFalsy_cex :
    (authMeGET "http://b" (some "Bearer x")
        (.responds 401 (.obj [("detail", .str "")]))).1.body =
      .obj [("detail", .str "Unauthorized")] ∧
    Json.obj [("detail", .str "Unauthorized")] ≠
      .obj [("detail", .str "")] := by
  exact ⟨rfl, by simp⟩

/-- C4 amended: on a non-ok backend response the admin-stats, auth-me and
notifications proxies return the backend status with a `detail` equal to
the backend `detail` when it is present and truthy (non-empty), and the
route-specific fallback when it is absent or falsy; on an ok response
they return the backend JSON body unchanged. -/
theorem proxyErrorPassthrough_amended (B a t : String) (s : Nat) (b v : Json)
    (ha : a ≠ "") (ht : t ≠ "") :
    (respOk s = false → jGet b "detail" = some v → jsTruthy v = true →
      (adminStatsGET B (some a) (.responds s b)).1 =
        ⟨s, .obj [("detail", v)]⟩ ∧
      (authMeGET B (some a) (.responds s b)).1 =
        ⟨s, .obj [("detail", v)]⟩ ∧
      (notificationsGET B (some t) (.responds s b)).1 =
        ⟨s, .obj [("detail", v)]⟩) ∧
    (respOk s = false →
      (jGet b "detail" = none ∨
        (jGet b "detail" = some v ∧ jsTruthy v = false)) →
      (adminStatsGET B (some a) (.responds s b)).1 =
        ⟨s, .obj [("detail", .str "Failed to fetch stats")]⟩ ∧
      (authMeGET B (some a) (.responds s b)).1 =
        ⟨s, .obj [("detail", .str "Unauthorized")]⟩ ∧
      (notificationsGET B (some t) (.responds s b)).1 =
        ⟨s, .obj [("detail", .str "Failed to fetch notifications")]⟩) ∧
    (respOk s = true →
      (adminStatsGET B (some a) (.responds s b)).1 = ⟨200, b⟩ ∧
      (authMeGET B (some a) (.responds s b)).1 = ⟨200, b⟩ ∧
      (notificationsGET B (some t) (.responds s b)).1 = ⟨200, b⟩) := by
  have hfa : jsFalsyStr (some a) = false := by simp [jsFalsyStr, ha]
  have hft : jsFalsyStr (some t) = false := by simp [jsFalsyStr, ht]
  refine ⟨?_, ?_, ?_⟩
  · intro hs hv htr
    have hd : ∀ fb, detailOrFallback b fb = v := fun fb => by
      simp [detailOrFallback, hv, htr]
    refine ⟨?_, ?_, ?_⟩ <;>
      simp [adminStatsGET, authMeGET, notificationsGET, hfa, hft,
            proxyTail, hs, hd]
  · intro hs hv
    have hd : ∀ fb, detailOrFallback b fb = .str fb := fun fb => by
      rcases hv with h | ⟨h, htr⟩
      · simp [detailOrFallback, h]
      · simp [detailOrFallback, h, htr]
    refine ⟨?_, ?_, ?_⟩ <;>
      simp [adminStatsGET, authMeGET, notificationsGET, hfa, hft,
            proxyTail, hs, hd]
  · intro hs
    refine ⟨?_, ?_, ?_⟩ <;>
      simp [adminStatsGET, authMeGET, notificationsGET, hfa, hft,
            proxyTail, hs]

/-- C4 witness: a 404 with a non-empty backend `detail` is passed through
by the admin-stats proxy. -/
theorem proxyErrorPassthrough_witness :
    (adminStatsGET "http://b" (some "Bearer x")
        (.responds 404 (.obj [("detail", .str "Not found")]))).1 =
      ⟨404, .obj [("detail", .str "Not found")]⟩ :=
  ((proxyErrorPassthrough_amended "http://b" "Bearer x" "tok" 404
      (.obj [("detail", .str "Not found")]) (.str "Not found")
      (by decide) (by decide)).1 (by decide) rfl rfl).1

/-- C5 counterexample: a `token` query parameter that is present but
empty does not reach the backend: the guard `if (!token)` also rejects
the empty string, so both routes answer 400 `Tracking token is required`
without a fetch instead of embedding the empty token in the backend
URL. -/
theorem emptyToken_guard_cex :
    notificationsGET "http://b" (some "") Outcome.throws =
      (⟨400, .obj [("detail", .str "Tracking token is required")]⟩, none) ∧
    notifReadPATCH "http://b" "7" (some "") Outcome.throws =
      (⟨400, .obj [("detail", .str "Tracking token is required")]⟩, none) := by
  exact ⟨rfl, rfl⟩

/-- C5 amended: GET `/api/notifications` and PATCH
`/api/notifications/[id]/read` answer 400 `Tracking token is required`
without contacting the backend when the `token` parameter is absent or
empty; a non-empty token is embedded verbatim and uninspected into the
backend URL. -/
theorem trackingTokenGuard_amended (B id t : String) (tk : Option String)
    (o : Outcome) (ht : t ≠ "") (htk : tk = none ∨ tk = some "") :
    notificationsGET B tk o =
      (⟨400, .obj [("detail", .str "Tracking token is required")]⟩, none) ∧
    notifReadPATCH B id tk o =
      (⟨400, .obj [("detail", .str "Tracking token is required")]⟩, none) ∧
    (notificationsGET B (some t) o).2 =
      some ⟨B ++ "/notifications/my-notifications?token=" ++ t,
            "GET", none, .empty⟩ ∧
    (notifReadPATCH B id (some t) o).2 =
      some ⟨B ++ "/notifications/" ++ id ++ "/read?token=" ++ t,
            "PATCH", none, .empty⟩ := by
  have hft : jsFalsyStr (some t) = false := by simp [jsFalsyStr, ht]
  have hg : ∀ oo, notificationsGET B tk oo =
      (⟨400, .obj [("detail", .str "Tracking token is required")]⟩, none) := by
    intro oo; rcases htk with h | h <;> subst h <;> rfl
  have hp : ∀ oo, notifReadPATCH B id tk oo =
      (⟨400, .obj [("detail", .str "Tracking token is required")]⟩, none) := by
    intro oo; rcases htk with h | h <;> subst h <;> rfl
  refine ⟨hg o, hp o, ?_, ?_⟩ <;>
    simp [notificationsGET, notifReadPATCH, hft]

/-- C5 witness: a present-but-empty token gets the 400 guard response on
the read route, and a concrete non-empty token is embedded in the backend
notifications URL. -/
theorem trackingTokenGuard_witness :
    notifReadPATCH "http://b" "7" (some "") Outcome.throws =
      (⟨400, .obj [("detail", .str "Tracking token is required")]⟩, none) ∧
    (notificationsGET "http://b" (some "abc") Outcome.throws).2 =
      some ⟨"http://b/notifications/my-notifications?token=abc",
            "GET", none, .empty⟩ := by
  have h := trackingTokenGuard_amended "http://b" "7" "abc" (some "")
      Outcome.throws (by decide) (Or.inr rfl)
  exact ⟨h.2.1, h.2.2.1.trans rfl⟩

/-- C6 counterexample: the hotspot popup displays more than the center
and the count: two hotspots agreeing on center and issue count but
differing in `issue_ids` render differently, because the popup lists the
first five issue ids (and, when truthy, the primary department). -/
theorem hotspotPopup_extraFields_cex :
    (Hotspot.mk 0 10 20 3 [1] none).centerLat =
      (Hotspot.mk 0 10 20 3 [2] none).centerLat ∧
    (Hotspot.mk 0 10 20 3 [1] none).centerLon =
      (Hotspot.mk 0 10 20 3 [2] none).centerLon ∧
    (Hotspot.mk 0 10 20 3 [1] none).issue_count =
      (Hotspot.mk 0 10 20 3 [2] none).issue_count ∧
    hotspotLayer (Hotspot.mk 0 10 20 3 [1] none) ≠
      hotspotLayer (Hotspot.mk 0 10 20 3 [2] none) := by
  refine ⟨rfl, rfl, rfl, ?_⟩
  decide

/-- C6 amended: each hotspot marker (and its highlight circle) is placed
exactly at the backend-supplied cluster center and its icon is labelled
with the backend-supplied issue count — the client performs no clustering
computation — but the popup additionally displays the primary department
(when non-empty) and up to five issue ids. -/
theorem hotspotMarker_center_count (h : Hotspot) :
    (hotspotLayer h).markerPos = (h.centerLat, h.centerLon) ∧
    (hotspotLayer h).iconCount = h.issue_count ∧
    (hotspotLayer h).circlePos = (h.centerLat, h.centerLon) :=
  ⟨rfl, rfl, rfl⟩

/-- C7 counterexample: a submission response that contains a
`tracking_token` field whose value is the empty string is not stored: the
guard `if (res.tracking_token)` is falsy, so localStorage keeps no token. -/
theorem emptyTrackingToken_notStored_cex :
    jGet (.obj [("tracking_token", .str "")]) "tracking_token" =
      some (.str "") ∧
    handleSubmitStore ([] : Store) (.obj [("tracking_token", .str "")]) =
      ([] : Store) ∧
    getItem (handleSubmitStore ([] : Store)
        (.obj [("tracking_token", .str "")])) "tracking_token" = none := by
  exact ⟨rfl, rfl, rfl⟩

/-- C7 amended: a successful submission response with a truthy (non-empty)
`tracking_token` stores it under the localStorage key `tracking_token`;
the notifications, vote-status, vote and comment requests each read the
token from that key and embed the stored value in what they send; with no
stored token the vote and comment actions send nothing. -/
theorem trackingToken_flow_amended (A issueId text : String) (st : Store)
    (res v : Json) :
    (jGet res "tracking_token" = some v → jsTruthy v = true →
      getItem (handleSubmitStore st res) "tracking_token" =
        some (jsToStr v)) ∧
    (∀ fc, notificationsPageFetch st = some fc →
      ∃ tk, getItem st "tracking_token" = some tk ∧
        fc.url = "/api/notifications?token=" ++ tk) ∧
    (∀ fc, fetchVoteStatus A st issueId = some fc →
      ∃ tk, getItem st "tracking_token" = some tk ∧
        fc.url = A ++ "/issues/" ++ issueId ++ "/vote?citizen_token="
          ++ tk) ∧
    (∀ fc, handleVote A st issueId = some fc →
      ∃ tk, getItem st "tracking_token" = some tk ∧
        fc.body = .jsonBody (.obj [("citizen_token", .str tk),
                                   ("vote_type", .str "upvote")])) ∧
    (∀ fc, handleComment A st issueId text = some fc →
      ∃ tk, getItem st "tracking_token" = some tk ∧
        fc.body = .jsonBody (.obj [("citizen_token", .str tk),
                                   ("text", .str text)])) ∧
    (getItem st "tracking_token" = none →
      handleVote A st issueId = none ∧
      handleComment A st issueId text = none) := by
  refine ⟨?_, ?_, ?_, ?_, ?_, ?_⟩
  · intro hv htr
    simp [handleSubmitStore, hv, htr, getItem, setItem, List.lookup]
  · intro fc hfc
    cases hTok : getItem st "tracking_token" with
    | none => rw [notificationsPageFetch, hTok] at hfc; simp [jsFalsyStr] at hfc
    | some tk =>
        rw [notificationsPageFetch, hTok] at hfc
        by_cases he : tk = ""
        · subst he; simp [jsFalsyStr] at hfc
        · have hf : jsFalsyStr (some tk) = false := by simp [jsFalsyStr, he]
          rw [hf] at hfc
          simp only [Bool.false_eq_true, if_false, Option.some.injEq] at hfc
          exact ⟨tk, rfl, by rw [← hfc]; rfl⟩
  · intro fc hfc
    cases hTok : getItem st "tracking_token" with
    | none => rw [fetchVoteStatus, hTok] at hfc; simp [jsFalsyStr] at hfc
    | some tk =>
        rw [fetchVoteStatus, hTok] at hfc
        by_cases he : tk = ""
        · subst he; simp [jsFalsyStr] at hfc
        · have hf : jsFalsyStr (some tk) = false := by simp [jsFalsyStr, he]
          rw [hf] at hfc
          simp only [Bool.false_eq_true, if_false, Option.some.injEq] at hfc
          exact ⟨tk, rfl, by rw [← hfc]; rfl⟩
  · intro fc hfc
    cases hTok : getItem st "tracking_token" with
    | none => rw [handleVote, hTok] at hfc; simp [jsFalsyStr] at hfc
    | some tk =>
        rw [handleVote, hTok] at hfc
        by_cases he : tk = ""
        · subst he; simp [jsFalsyStr] at hfc
        · have hf : jsFalsyStr (some tk) = false := by simp [jsFalsyStr, he]
          rw [hf] at hfc
          simp only [Bool.false_eq_true, if_false, Option.some.injEq] at hfc
          exact ⟨tk, rfl, by rw [← hfc]; rfl⟩
  · intro fc hfc
    cases hTok : getItem st "tracking_token" with
    | none => rw [handleComment, hTok] at hfc; simp [jsFalsyStr] at hfc
    | some tk =>
        rw [handleComment, hTok] at hfc
        by_cases he : tk = ""
        · subst he; simp [jsFalsyStr] at hfc
        · have hf : jsFalsyStr (some tk) = false := by simp [jsFalsyStr, he]
          rw [hf] at hfc
          by_cases hb : text.trim = ""
          · simp [hb] at hfc
          · have hbf : (text.trim == "") = false := by simp [hb]
            rw [hbf] at hfc
            simp only [Bool.false_eq_true, if_false, Option.some.injEq] at hfc
            exact ⟨tk, rfl, by rw [← hfc]; rfl⟩
  · intro hNone
    constructor <;> simp [handleVote, handleComment, hNone, jsFalsyStr]

/-- C7 witness: a truthy token from a submission response is stored and
readable, and with an empty store no vote is sent. -/
theorem trackingToken_flow_witness :
    getItem (handleSubmitStore ([] : Store)
        (.obj [("tracking_token", .str "tok123")])) "tracking_token" =
      some "tok123" ∧
    handleVote "http://localhost:8000" ([] : Store) "1" = none := by
  have h := trackingToken_flow_amended "http://localhost:8000" "1" "hi"
      ([] : Store) (.obj [("tracking_token", .str "tok123")])
      (.str "tok123")
  refine ⟨(h.1 rfl rfl).trans ?_, (h.2.2.2.2.2 rfl).1⟩
  simp [jsToStr]

/-- C9: GET `/api/notifications/count` always answers 200; whenever the
token is absent, the backend call throws, or the backend answers non-ok,
the body is `total: 0, unread: 0`; any other body is the body of an ok
backend response. -/
theorem notifCount_always_200 (B : String) (tk : Option String)
    (o : Outcome) :
    (notifCountGET B tk o).1.status = 200 ∧
    ((tk = none ∨ o = .throws ∨
        ∃ s b, o = .responds s b ∧ respOk s = false) →
      (notifCountGET B tk o).1.body =
        .obj [("total", .num 0), ("unread", .num 0)]) ∧
    ((notifCountGET B tk o).1.body ≠
        .obj [("total", .num 0), ("unread", .num 0)] →
      ∃ s b, o = .responds s b ∧ respOk s = true ∧
        (notifCountGET B tk o).1.body = b) := by
  have hEval : (notifCountGET B tk o).1 =
      if jsFalsyStr tk then ⟨200, .obj [("total", .num 0), ("unread", .num 0)]⟩
      else match o with
        | .throws => ⟨200, .obj [("total", .num 0), ("unread", .num 0)]⟩
        | .responds s b =>
            if respOk s then ⟨200, b⟩
            else ⟨200, .obj [("total", .num 0), ("unread", .num 0)]⟩ := by
    by_cases hf : jsFalsyStr tk = true
    · simp [notifCountGET, hf]
    · simp only [Bool.not_eq_true] at hf
      cases o with
      | throws => simp [notifCountGET, hf]
      | responds s b =>
          by_cases hok : respOk s = true
          · simp [notifCountGET, hf, hok]
          · simp only [Bool.not_eq_true] at hok
            simp [notifCountGET, hf, hok]
  refine ⟨?_, ?_, ?_⟩
  · rw [hEval]
    by_cases hf : jsFalsyStr tk = true
    · simp [hf]
    · simp only [Bool.not_eq_true] at hf
      cases o with
      | throws => simp [hf]
      | responds s b =>
          by_cases hok : respOk s = true
          · simp [hf, hok]
          · simp only [Bool.not_eq_true] at hok
            simp [hf, hok]
  · intro hcase
    rw [hEval]
    by_cases hf : jsFalsyStr tk = true
    · simp [hf]
    · simp only [Bool.not_eq_true] at hf
      rcases hcase with h | h | ⟨s, b, hsb, hbad⟩
      · subst h; simp [jsFalsyStr] at hf
      · subst h; simp [hf]
      · subst hsb; simp [hf, hbad]
  · intro hne
    rw [hEval] at hne ⊢
    by_cases hf : jsFalsyStr tk = true
    · simp [hf] at hne
    · simp only [Bool.not_eq_true] at hf
      cases o with
      | throws => simp [hf] at hne
      | responds s b =>
          by_cases hok : respOk s = true
          · exact ⟨s, b, rfl, hok, by simp [hf, hok]⟩
          · simp only [Bool.not_eq_true] at hok
            simp [hf, hok] at hne

/-- C9 witness: with no token and a throwing backend the route still
answers 200 with zero counts. -/
theorem notifCount_always_200_witness :
    (notifCountGET "http://b" none Outcome.throws).1.status = 200 ∧
    (notifCountGET "http://b" none Outcome.throws).1.body =
      .obj [("total", .num 0), ("unread", .num 0)] :=
  ⟨(notifCount_always_200 "http://b" none Outcome.throws).1,
   (notifCount_always_200 "http://b" none Outcome.throws).2.1 (Or.inl rfl)⟩

end AdvoLens
